import Mathlib

/-!
Shallow embedding of the citation-resolution pipeline of `src/app/main.py`
(single-file Streamlit question-answering front end).

Conventions of the embedding:
* Python `dict`s materialise as association lists; assignment prepends a
  binding, `List.lookup` returns the first (= most recent) one, which matches
  `dict` overwrite semantics for every read the program performs.
* The document-metadata records (JSON objects with string values, per the
  data model of the spec) are association lists `Dict`; `dget` embeds
  `dict.get(key, default)`.
* The outbound network call of `query_gemini` (the `genai` client call plus
  the defensive extraction of answer text and grounding chunks performed by
  `extract_sources`) is abstracted as an oracle
  `endpoint : api_key → question → system_instruction → store_ids →
  Except errMsg (answerText, citations)`: `Except.error` stands for any
  exception raised during the call.  `query_gemini` also returns the number
  of oracle invocations it performed, so that no-network-call claims are
  statable.  Wall-clock latency is an oracle-supplied `Nat`.
* File input of `load_mappings` is abstracted per reference file as
  `FileInput`: `absent` (the `.exists()` guard fails), `malformed prefix`
  (an exception is raised while opening, parsing or iterating the file,
  AFTER the entries of `prefix` were already merged — a plain parse failure
  is `malformed []`, a mid-iteration failure carries the entries processed
  before the raising one; entry processing itself is atomic in the source,
  since within one entry every fallible operation precedes the first table
  assignment) or `ok` fully parsed content.  The single surrounding
  `try/except` of the Python code is embedded with `Except`: a `malformed`
  file keeps its merged prefix, aborts the remaining loads and surfaces the
  warning flag.
-/

namespace FscQa

/-- A JSON object with string values / a Python string-keyed, string-valued
dict, as an association list (most recent binding first). -/
abbrev Dict := List (String × String)

/-- Embeds Python `d.get(k, dflt)` on a `Dict`. -/
def dget (d : Dict) (k dflt : String) : String :=
  match d.lookup k with
  | some v => v
  | none => dflt

/-!
The string primitives the program uses (`startswith`, `split`, `in`,
`replace`, `<`) are re-implemented on the character lists underlying
`String` by structural recursion, so that every theorem below evaluates
inside the kernel (the core `String` versions are compiled loops the kernel
cannot reduce).  Python compares strings code point by code point, which is
exactly the lexicographic `<` on `List Char`.
-/

/-- Whether the first character list is an initial segment of the second
(Python `s.startswith(pre)` reads `listIsPre pre.data s.data`). -/
def listIsPre : List Char → List Char → Bool
  | [], _ => true
  | _ :: _, [] => false
  | a :: as, b :: bs => a == b && listIsPre as bs

/-- Embeds Python `s.startswith(pre)`. -/
def strStartsWith (s pre : String) : Bool :=
  listIsPre pre.data s.data

/-- Embeds Python substring containment `tok in s`. -/
def containsSeq (tok : List Char) : List Char → Bool
  | [] => listIsPre tok []
  | a :: as => listIsPre tok (a :: as) || containsSeq tok as

/-- Embeds Python `tok in s` on strings. -/
def containsTok (s tok : String) : Bool :=
  containsSeq tok.data s.data

/-- Embeds Python `c in s` for a single character `c`. -/
def containsChar (s : String) (c : Char) : Bool :=
  s.data.contains c

/-- Embeds Python `s.split(c)` for a one-character separator, on character
lists: `[[]]` for the empty string, separators never dropped. -/
def splitCharAux (c : Char) : List Char → List (List Char)
  | [] => [[]]
  | a :: as =>
    let r := splitCharAux c as
    if a == c then [] :: r
    else
      match r with
      | [] => [[a]]
      | h :: t => (a :: h) :: t

/-- Embeds Python `s.split(c)` for a one-character separator. -/
def strSplitChar (s : String) (c : Char) : List String :=
  (splitCharAux c s.data).map (fun l => String.mk l)

/-- Fuelled left-to-right non-overlapping replacement on character lists;
`fuel ≥` the list length makes it total.  Only used with a nonempty
pattern. -/
def replaceFuel (pat rep : List Char) : Nat → List Char → List Char
  | 0, s => s
  | _ + 1, [] => []
  | n + 1, a :: as =>
    if listIsPre pat (a :: as) then
      rep ++ replaceFuel pat rep n (List.drop (pat.length - 1) as)
    else a :: replaceFuel pat rep n as

/-- Embeds Python `s.replace(pat, rep)` (all occurrences, left to right,
nonempty `pat`). -/
def strReplace (s pat rep : String) : String :=
  String.mk (replaceFuel pat.data rep.data s.data.length s.data)

/-- Embeds Python string comparison `a < b`: lexicographic in code points,
a strict prefix sorting first. -/
abbrev pyStrLt (a b : String) : Prop := a.data < b.data

/-- One entry of the static `STORES` table (src/app/main.py lines 27-52). -/
structure StoreInfo where
  name : String
  store_id : String
  display_name : String
  icon : String
  description : String
  count : Nat
  deriving Repr, DecidableEq

/-- The static collection table `STORES` (src/app/main.py lines 27-52). -/
def STORES : List (String × StoreInfo) :=
  [("penalties",
    ⟨"fsc-penalties-plaintext",
     "fileSearchStores/fscpenaltiesplaintext-4f87t5uexgui",
     "裁罰案件", "⚖️", "490 筆金融機構裁罰案件 (2012-2025)", 490⟩),
   ("law_interpretations",
    ⟨"fsc-law-interpretations",
     "fileSearchStores/fsclawinterpretations-zz5pwrly06hz",
     "法令函釋", "📜", "法規解釋、修正說明、條文對照", 2872⟩),
   ("announcements",
    ⟨"fsc-announcements",
     "fileSearchStores/fscannouncements-o94q0kmo2zxb",
     "重要公告", "📢", "政策公告、法規修正公告", 1642⟩)]

/-- Embeds `format_source_display_name` (src/app/main.py lines 308-340):
heuristic label for a raw identifier the alias table does not know. -/
def format_source_display_name (raw_name : String) : String :=
  if raw_name = "" then "未知文件"
  else
    let source_type :=
      if containsTok raw_name "fsc_law" || containsTok raw_name "law_" then "法令函釋"
      else if containsTok raw_name "fsc_unk" || containsTok raw_name "ann_" then "重要公告"
      else if containsTok raw_name "fsc_pen" || containsTok raw_name "penalty" then "裁罰案件"
      else "未知"
    let parts := strSplitChar raw_name '_'
    let date :=
      if parts ≠ [] ∧ (parts.getD 0 "").length = 10 ∧ containsChar (parts.getD 0 "") '-' then
        parts.getD 0 ""
      else "未知日期"
    source_type ++ "_" ++ date

/-- The closed namespacing-prefix dispatch of `resolve_source_display_name`
(src/app/main.py lines 148-159): source type from the document identifier. -/
def sourceTypeOf (doc_id : String) : String :=
  if strStartsWith doc_id "fsc_pen" then "裁罰案件"
  else if strStartsWith doc_id "fsc_law" then "法令函釋"
  else if strStartsWith doc_id "fsc_unk" || strStartsWith doc_id "fsc_ann" then "重要公告"
  else "未知"

/-- The icon paired with each source type (src/app/main.py lines 148-159). -/
def iconOf (doc_id : String) : String :=
  if strStartsWith doc_id "fsc_pen" then "⚖️"
  else if strStartsWith doc_id "fsc_law" then "📜"
  else if strStartsWith doc_id "fsc_unk" || strStartsWith doc_id "fsc_ann" then "📢"
  else "📄"

/-- The source-office localisation table (src/app/main.py lines 162-167). -/
def source_map : Dict :=
  [("insurance_bureau", "保險局"), ("securities_bureau", "證期局"),
   ("bank_bureau", "銀行局"), ("fsc", "金管會")]

/-- The alias-hit branch of `resolve_source_display_name`
(src/app/main.py lines 140-182): metadata found for `doc_id`. -/
def resolveHit (doc_id : String) (info : Dict) : String × String × String × String :=
  let display_name := dget info "display_name" ""
  let date := dget info "date" "未知日期"
  let source := dget info "source" ""
  let original_url := dget info "original_url" ""
  let source_type := sourceTypeOf doc_id
  let icon := iconOf doc_id
  let source_display := dget source_map source source
  let label :=
    if display_name = "" then icon ++ " " ++ source_type ++ "_" ++ date
    else
      let parts := strSplitChar display_name '_'
      if strStartsWith doc_id "fsc_pen" ∧ 3 ≤ parts.length then
        icon ++ " " ++ parts.getD 0 "" ++ "_" ++ parts.getD 2 ""
      else if 2 ≤ parts.length then
        icon ++ " " ++ date ++ "_" ++ source_display
      else icon ++ " " ++ source_type ++ "_" ++ date
  (label, source_type, date, original_url)

/-- The alias-miss fallthrough of `resolve_source_display_name`
(src/app/main.py line 185): heuristic parse of the raw identifier. -/
def resolveMiss (raw_id : String) : String × String × String × String :=
  ("📄 " ++ format_source_display_name raw_id, "未知", "未知日期", "")

/-- Embeds `resolve_source_display_name` (src/app/main.py lines 131-185),
parameterised by the two global tables `GEMINI_ID_MAPPING` (`gmap`) and
`FILE_MAPPING` (`fmap`).  Returns `(display_name, source_type, date,
original_url)`. -/
def resolve_source_display_name (gmap : Dict) (fmap : List (String × Dict))
    (raw_id : String) : String × String × String × String :=
  let doc_id := dget gmap raw_id ""
  if doc_id = "" then resolveMiss raw_id
  else
    match fmap.lookup doc_id with
    | some info => resolveHit doc_id info
    | none => resolveMiss raw_id

/-- Embeds `get_system_prompt` (src/app/main.py lines 199-239). -/
def get_system_prompt (selected_stores : List String) : String :=
  let base_prompt := "你是專業的金融法規顧問。請根據參考資料回答問題。\n\n回答時必須：\n1. 明確引用來源文件（檔案名稱、日期）\n2. 如果資料中沒有相關資訊，請誠實說明\n3. 使用繁體中文回答\n4. 保持專業、客觀的態度\n"
  let specific_guidelines : List String :=
    (if "penalties" ∈ selected_stores then
      ["\n【裁罰案件指引】\n- 列舉具體案例與裁罰內容\n- 說明受罰機構、罰款金額、違規行為\n- 引用相關法律依據"]
     else [])
    ++ (if "law_interpretations" ∈ selected_stores then
      ["\n【法令函釋指引】\n- 解釋法規的具體含義\n- 列出修正前後的差異（如有）\n- 引用發文字號"]
     else [])
    ++ (if "announcements" ∈ selected_stores then
      ["\n【重要公告指引】\n- 說明公告的主要內容\n- 列出生效日期（如有）\n- 引用公告文號"]
     else [])
  if specific_guidelines = [] then base_prompt
  else base_prompt ++ "\n" ++ String.intercalate "\n" specific_guidelines

/-- A resolved citation record as assembled by `extract_sources`
(src/app/main.py lines 379-387).  The floating-point relevance score is not
modelled (no claim touches it). -/
structure Source where
  filename : String
  raw_id : String
  source_type : String
  date : String
  snippet : String
  original_url : String
  deriving Repr, DecidableEq

/-- The dictionary `query_gemini` returns (src/app/main.py lines 254-305):
`latency` is `none` on the paths whose Python dict carries no latency key. -/
structure QueryResult where
  answer : String
  sources : List Source
  latency : Option Nat
  error : Bool
  deriving Repr, DecidableEq

/-- The abstracted retrieval endpoint: api key, question, system
instruction and store ids in; either an exception message or the extracted
(answer text, citation list) out. -/
abbrev Endpoint := String → String → String → List String →
  Except String (String × List Source)

/-- Embeds `query_gemini` (src/app/main.py lines 242-305) over the
abstracted endpoint.  The second component counts endpoint invocations
(0 or 1); `elapsed` is the measured wall-clock latency recorded on the
success path. -/
def query_gemini (endpoint : Endpoint) (elapsed : Nat) (question : String)
    (selected_stores : List String) (api_key : String) : QueryResult × Nat :=
  let store_ids := selected_stores.filterMap
    (fun s => (STORES.lookup s).map (fun st => st.store_id))
  if store_ids = [] then
    (⟨"請至少選擇一個資料來源", [], none, true⟩, 0)
  else
    let system_prompt := get_system_prompt selected_stores
    match endpoint api_key question system_prompt store_ids with
    | Except.ok (answer, sources) => (⟨answer, sources, some elapsed, false⟩, 1)
    | Except.error e => (⟨"查詢失敗: " ++ e, [], none, true⟩, 1)

/-! ### Mapping store load -/

/-- One reference file as `load_mappings` sees it: absent (the `.exists()`
guard is false), malformed with the prefix of entries merged before the
exception was raised (a file whose open/parse fails outright is
`malformed []`; one that raises mid-iteration, e.g. on a corrupt entry,
carries the well-formed entries processed before it), or fully parsed
content. -/
inductive FileInput (α : Type) where
  | absent : FileInput α
  | malformed : α → FileInput α
  | ok : α → FileInput α
  deriving Repr, DecidableEq

/-- Whether the file input is the malformed case. -/
def FileInput.isMal {α : Type} : FileInput α → Bool
  | .malformed _ => true
  | _ => false

/-- The two tables `load_mappings` builds: `gmap` is `gemini_id_mapping`
(short id → doc id), `fmap` is `file_mapping` (doc id → info). -/
structure MapState where
  gmap : Dict
  fmap : List (String × Dict)
  deriving Repr, DecidableEq

/-- Penalties `gemini_id_mapping.json` (src/app/main.py lines 70-76):
each `full_id → doc_id` pair becomes `full_id.replace("files/", "") →
doc_id`. -/
def loadPenGem (st : MapState) (m : List (String × String)) : MapState :=
  ⟨m.foldl (fun g p => (strReplace p.1 "files/" "", p.2) :: g) st.gmap, st.fmap⟩

/-- Penalties `file_mapping.json` (src/app/main.py lines 79-82):
`file_mapping.update(...)`. -/
def loadPenFile (st : MapState) (m : List (String × Dict)) : MapState :=
  ⟨st.gmap, m.foldl (fun fm p => p :: fm) st.fmap⟩

/-- A unified-format `gemini_id_mapping_new.json` (src/app/main.py
lines 86-101 and 105-120, identical code for the two collections). -/
def loadNewFormat (st : MapState) (m : List (String × Dict)) : MapState :=
  m.foldl
    (fun s p =>
      let doc_id := p.1
      let info := p.2
      let gemini_file_id := dget info "gemini_file_id" ""
      let g :=
        if gemini_file_id ≠ "" then
          (strReplace gemini_file_id "files/" "", doc_id) :: s.gmap
        else s.gmap
      ⟨g, (doc_id,
        [("display_name", dget info "display_name" ""),
         ("date", dget info "date" ""),
         ("source", dget info "source" ""),
         ("category", dget info "category" ""),
         ("original_url", dget info "original_url" "")]) :: s.fmap⟩)
    st

/-- Processing of one reference file inside the single `try` block:
absent is skipped; a malformed file first merges the entries it processed
before raising, then throws to the `except` handler (so those entries stay
in the returned tables, exactly as in the source). -/
def stepFile {α : Type} (f : MapState → α → MapState) (inp : FileInput α)
    (st : MapState) : Except MapState MapState :=
  match inp with
  | .absent => Except.ok st
  | .malformed a => Except.error (f st a)
  | .ok a => Except.ok (f st a)

/-- Embeds `load_mappings` (src/app/main.py lines 55-125) over the four
reference files, in source order: penalties `gemini_id_mapping.json`,
penalties `file_mapping.json`, law-interpretations and announcements
`gemini_id_mapping_new.json`.  The boolean is the non-fatal warning
(`st.warning` in the `except` handler). -/
def load_mappings (penG : FileInput (List (String × String)))
    (penF : FileInput (List (String × Dict)))
    (lawG : FileInput (List (String × Dict)))
    (annG : FileInput (List (String × Dict))) : MapState × Bool :=
  match Except.bind (Except.bind (Except.bind (stepFile loadPenGem penG ⟨[], []⟩)
      (stepFile loadPenFile penF)) (stepFile loadNewFormat lawG))
      (stepFile loadNewFormat annG) with
  | Except.ok st => (st, false)
  | Except.error st => (st, true)

/-! ### Presenter -/

/-- What the query-handling block of `main` (src/app/main.py lines 495-587)
renders for a submitted question. -/
inductive Rendered where
  | selectError : Rendered
  | errorMsg : String → Rendered
  | results : QueryResult → Rendered
  | retryResults : QueryResult → Rendered
  | noResults : Rendered
  deriving Repr, DecidableEq

/-- Embeds the query-handling block of `main` (src/app/main.py lines
495-587) for a submitted question.  `net i` is the endpoint behaviour of the
i-th orchestrator call (the external service is not deterministic, so the
oracle is indexed by call order).  The second component is the log of
`(question, selected_stores, api_key)` argument triples of the
`query_gemini` calls made, in order. -/
def handle_query (net : Nat → Endpoint) (lat1 lat2 : Nat) (question : String)
    (selected_stores : List String) (api_key : String) :
    Rendered × List (String × List String × String) :=
  if selected_stores = [] then (Rendered.selectError, [])
  else
    let r := (query_gemini (net 0) lat1 question selected_stores api_key).1
    if r.error then (Rendered.errorMsg r.answer, [(question, selected_stores, api_key)])
    else if r.sources ≠ [] then
      (Rendered.results r, [(question, selected_stores, api_key)])
    else
      let r2 := (query_gemini (net 1) lat2 question selected_stores api_key).1
      if r2.sources ≠ [] then
        (Rendered.retryResults r2,
         [(question, selected_stores, api_key), (question, selected_stores, api_key)])
      else
        (Rendered.noResults,
         [(question, selected_stores, api_key), (question, selected_stores, api_key)])

/-- Stable descending insertion by date: the element passes every earlier
element whose date is strictly greater.  `sortByDateDesc` below matches
Python `list.sort(key=lambda x: x.get("date", ""), reverse=True)`: a stable
sort, descending in the lexicographic (code-point) string order. -/
def insertByDateDesc (x : Source) : List Source → List Source
  | [] => [x]
  | y :: ys =>
    if pyStrLt x.date y.date then y :: insertByDateDesc x ys else x :: y :: ys

/-- The per-bucket sort of the Presenter (src/app/main.py lines 530-532 and
572-575): stable, by date descending, dates compared as opaque strings. -/
def sortByDateDesc (l : List Source) : List Source :=
  l.foldr insertByDateDesc []

/-! ### Concrete fixtures used by counterexamples and witnesses -/

/-- Alias table with one penalty-type document, as in the round-trip example
of the spec. -/
def gmapC2 : Dict := [("rawid1", "fsc_pen_20250925_0001")]

/-- The metadata record carrying the round-trip example display name
`2025-09-25_insurance_bureau_全球人壽`. -/
def infoC2 : Dict :=
  [("display_name", "2025-09-25_insurance_bureau_全球人壽"),
   ("date", "2025-09-25"),
   ("source", "insurance_bureau"),
   ("category", "penalty"),
   ("original_url", "")]

/-- Document table whose entry carries the round-trip example display name
`2025-09-25_insurance_bureau_全球人壽`. -/
def fmapC2 : List (String × Dict) :=
  [("fsc_pen_20250925_0001", infoC2)]

/-- A unified-format file content with a single well-formed entry. -/
def lawEntryC3 : List (String × Dict) :=
  [("doc1",
    [("gemini_file_id", "files/abc"),
     ("display_name", "2020-01-01_fsc_law_x"),
     ("date", "2020-01-01"),
     ("source", "fsc"),
     ("category", "law"),
     ("original_url", "u")])]

/-- A citation record carrying only a date (the sort looks at nothing
else). -/
def srcOfDate (d : String) : Source := ⟨"", "", "", d, "", ""⟩

/-- The four-citation bucket of claim C8. -/
def bucketC8 : List Source :=
  [srcOfDate "2020-01-01", srcOfDate "2023-05-05",
   srcOfDate "2019-12-31", srcOfDate "unknown date"]

/-- An endpoint that always answers with zero citations. -/
def netEmpty : Nat → Endpoint := fun _ _ _ _ _ => Except.ok ("ans", [])

/-- An endpoint that always raises. -/
def endpointFail : Endpoint := fun _ _ _ _ => Except.error "boom"

/-! ### Helper lemmas -/

/-- The second component of the hit branch is always the prefix-dispatched
source type. -/
theorem resolveHit_type (doc_id : String) (info : Dict) :
    (resolveHit doc_id info).2.1 = sourceTypeOf doc_id := rfl

/-- The prefix dispatch only produces the four fixed source types. -/
theorem sourceTypeOf_mem (doc_id : String) :
    sourceTypeOf doc_id ∈ (["裁罰案件", "法令函釋", "重要公告", "未知"] : List String) := by
  unfold sourceTypeOf
  split_ifs <;> simp

/-- An empty penalties alias file contributes nothing. -/
theorem loadPenGem_nil (st : MapState) : loadPenGem st [] = st := rfl

/-- An empty penalties document file contributes nothing. -/
theorem loadPenFile_nil (st : MapState) : loadPenFile st [] = st := rfl

/-- An empty unified-format file contributes nothing. -/
theorem loadNewFormat_nil (st : MapState) : loadNewFormat st [] = st := rfl

/-- Membership through the descending insertion. -/
theorem mem_insertByDateDesc {z x : Source} {l : List Source} :
    z ∈ insertByDateDesc x l ↔ z = x ∨ z ∈ l := by
  induction l with
  | nil => simp [insertByDateDesc]
  | cons y ys ih =>
    simp only [insertByDateDesc]
    split
    · simp only [List.mem_cons, ih]
      try tauto
    · simp only [List.mem_cons]
      try tauto

/-- Descending insertion preserves the descending pairwise order on
dates. -/
theorem pairwise_insertByDateDesc {x : Source} {l : List Source}
    (hl : l.Pairwise (fun a b => b.date.data ≤ a.date.data)) :
    (insertByDateDesc x l).Pairwise (fun a b => b.date.data ≤ a.date.data) := by
  induction l with
  | nil => simp [insertByDateDesc]
  | cons y ys ih =>
    rcases List.pairwise_cons.mp hl with ⟨hy, hys⟩
    simp only [insertByDateDesc]
    split
    · next hlt =>
      refine List.pairwise_cons.mpr ⟨?_, ih hys⟩
      intro z hz
      rcases mem_insertByDateDesc.mp hz with rfl | hz2
      · exact le_of_lt hlt
      · exact hy z hz2
    · next hge =>
      refine List.pairwise_cons.mpr ⟨?_, hl⟩
      intro z hz
      rcases List.mem_cons.mp hz with rfl | hz2
      · exact not_lt.mp hge
      · exact le_trans (hy z hz2) (not_lt.mp hge)

/-- The Presenter's per-bucket sort is descending in the code-point
order of the date strings. -/
theorem sortByDateDesc_sorted (l : List Source) :
    (sortByDateDesc l).Pairwise (fun a b => b.date.data ≤ a.date.data) := by
  induction l with
  | nil => simp [sortByDateDesc]
  | cons x xs ih =>
    show (insertByDateDesc x (sortByDateDesc xs)).Pairwise _
    exact pairwise_insertByDateDesc ih

/-! ### Theorems -/

/-- C1: the Display-Name Resolver is total over every pair of (string-valued)
tables and every raw identifier — in this embedding every partial Python
operation it performs is guarded exactly as in the source, so the function
is total by construction — and its source-type component always lies in the
closed four-element set, i.e. it is at worst 未知. -/
theorem c1_resolver_total (gmap : Dict) (fmap : List (String × Dict)) (raw_id : String) :
    (resolve_source_display_name gmap fmap raw_id).2.1 ∈
      (["裁罰案件", "法令函釋", "重要公告", "未知"] : List String) := by
  by_cases hdoc : dget gmap raw_id "" = ""
  · simp [resolve_source_display_name, hdoc, resolveMiss]
  · cases hfind : List.lookup (dget gmap raw_id "") fmap with
    | some info =>
      have hres : resolve_source_display_name gmap fmap raw_id =
          resolveHit (dget gmap raw_id "") info := by
        simp [resolve_source_display_name, hdoc, hfind]
      rw [hres, resolveHit_type]
      exact sourceTypeOf_mem _
    | none => simp [resolve_source_display_name, hdoc, hfind, resolveMiss]

/-- C6 counterexample: the raw identifier "r" is present in the alias table
(mapped to document identifier "fsc_pen_x"), yet because that document
identifier is absent from the document table the resolver falls back to the
heuristic and returns source-type 未知, which is outside the three-element
closed set the claim allows and does not match the fsc_pen prefix. -/
theorem c6_counterexample :
    List.lookup "r" [("r", "fsc_pen_x")] = some "fsc_pen_x"
    ∧ (resolve_source_display_name [("r", "fsc_pen_x")] [] "r").2.1 = "未知"
    ∧ "未知" ∉ (["裁罰案件", "法令函釋", "重要公告"] : List String) := by
  decide

/-- C6 (amended): for every raw identifier present in the alias table whose
mapped document identifier is nonempty and present in the document table,
the resolver returns exactly the source type of the closed namespacing
prefix dispatch (fsc_pen → 裁罰案件, fsc_law → 法令函釋,
fsc_unk/fsc_ann → 重要公告, anything else → 未知). -/
theorem c6_amended (gmap : Dict) (fmap : List (String × Dict))
    (raw_id doc_id : String) (info : Dict)
    (h1 : gmap.lookup raw_id = some doc_id) (h2 : doc_id ≠ "")
    (h3 : fmap.lookup doc_id = some info) :
    (resolve_source_display_name gmap fmap raw_id).2.1 = sourceTypeOf doc_id := by
  unfold resolve_source_display_name dget
  rw [h1]
  simp only [if_neg h2, h3]
  exact resolveHit_type doc_id info

/-- C6 witness: the concrete penalty-type entry of the document table
resolves to the prefix-dispatched source type. -/
theorem c6_witness :
    (resolve_source_display_name gmapC2 fmapC2 "rawid1").2.1 =
      sourceTypeOf "fsc_pen_20250925_0001" :=
  c6_amended gmapC2 fmapC2 "rawid1" "fsc_pen_20250925_0001" infoC2
    (by decide) (by decide) (by decide)

/-- C7 counterexample: for the raw identifier "2019-01-02_ann_x", absent
from the (empty) alias table, the leading 10-character segment
"2019-01-02" contains a separator, yet the date component the resolver
returns is the fixed sentinel 未知日期, not that segment (the extracted
segment only appears inside the display label). -/
theorem c7_counterexample :
    (resolve_source_display_name [] [] "2019-01-02_ann_x").2.2.1 ≠ "2019-01-02"
    ∧ (resolve_source_display_name [] [] "2019-01-02_ann_x") =
      ("📄 重要公告_2019-01-02", "未知", "未知日期", "") := by
  decide

/-- C7 (amended): for every raw identifier absent from the alias table the
resolver never raises and returns source-type 未知, empty canonical URL and
the fixed date sentinel 未知日期; the heuristically extracted leading date
segment appears only inside the display label, which is the 📄-tagged
heuristic label (in particular a generic 未知文件 label for the empty raw
identifier). -/
theorem c7_amended (gmap : Dict) (fmap : List (String × Dict)) (raw_id : String)
    (h : gmap.lookup raw_id = none) :
    resolve_source_display_name gmap fmap raw_id =
      ("📄 " ++ format_source_display_name raw_id, "未知", "未知日期", "")
    ∧ format_source_display_name "" = "未知文件" := by
  constructor
  · unfold resolve_source_display_name dget
    rw [h]
    rfl
  · rfl

/-- C7 witness: the empty raw identifier on empty tables yields the generic
unknown-document label without date, type or URL information. -/
theorem c7_witness :
    resolve_source_display_name [] [] "" = ("📄 未知文件", "未知", "未知日期", "") := by
  rw [(c7_amended [] [] "" rfl).1]
  rfl

/-- C2 counterexample: with the round-trip entry
`display_name = "2025-09-25_insurance_bureau_全球人壽"` for the
penalty-type identifier, the resolver does NOT return the label
`⚖️ 2025-09-25_全球人壽` claimed: `insurance_bureau` itself splits on the
underscore, so the third segment is `bureau`. -/
theorem c2_counterexample :
    (resolve_source_display_name gmapC2 fmapC2 "rawid1").1 ≠ "⚖️ 2025-09-25_全球人壽" := by
  decide

/-- C2 (amended): loading the round-trip document-mapping entry with
`display_name = "2025-09-25_insurance_bureau_全球人壽"` for a penalty-type
identifier resolves to the label `⚖️ 2025-09-25_bureau` (first and third
underscore-separated segments of the stored template), with source type
裁罰案件, the stored date and URL. -/
theorem c2_amended_label :
    resolve_source_display_name gmapC2 fmapC2 "rawid1" =
      ("⚖️ 2025-09-25_bureau", "裁罰案件", "2025-09-25", "") := by
  decide

/-- C5: calling the Query Orchestrator with an empty selected-collections
list returns the validation error result (error flag, empty citations,
human-readable message) and performs no endpoint call, for every endpoint
behaviour. -/
theorem c5_empty_selection (endpoint : Endpoint) (elapsed : Nat)
    (question api_key : String) :
    query_gemini endpoint elapsed question [] api_key =
      (⟨"請至少選擇一個資料來源", [], none, true⟩, 0) := rfl

/-- C3 counterexample: with only the penalties alias file malformed (its
parse failing outright, merging nothing), the well-formed
law-interpretations file's contribution (the alias `abc → doc1`) is NOT
loaded — the single try/except aborts the remaining loads — although
loading the same law file with the penalties file merely absent does
produce it; the warning is surfaced. -/
theorem c3_counterexample :
    (load_mappings FileInput.absent FileInput.absent (FileInput.ok lawEntryC3)
        FileInput.absent).1.gmap.lookup "abc" = some "doc1"
    ∧ (load_mappings (FileInput.malformed []) FileInput.absent (FileInput.ok lawEntryC3)
        FileInput.absent).1.gmap.lookup "abc" = none
    ∧ (load_mappings (FileInput.malformed []) FileInput.absent (FileInput.ok lawEntryC3)
        FileInput.absent).2 = true := by
  decide

/-- C3 (amended): the Mapping Store load is total (never raises) and its
warning flag is surfaced exactly when some reference file is malformed; an
ABSENT file contributes nothing and loading continues (it is equivalent to
an empty file); a MALFORMED file keeps exactly the entries it merged
before raising and aborts the single try block, so the rest of that file
and every subsequent file contribute nothing (a file malformed with no
merged prefix behaves like its truncation to the empty file) — partial or
fully empty tables are valid results. -/
theorem c3_amended (penG : FileInput (List (String × String)))
    (penF lawG annG : FileInput (List (String × Dict)))
    (a : List (String × String)) (b c d : List (String × Dict)) :
    ((load_mappings penG penF lawG annG).2 =
      (penG.isMal || penF.isMal || lawG.isMal || annG.isMal))
    ∧ (load_mappings FileInput.absent penF lawG annG =
        load_mappings (FileInput.ok []) penF lawG annG)
    ∧ (load_mappings penG FileInput.absent lawG annG =
        load_mappings penG (FileInput.ok []) lawG annG)
    ∧ (load_mappings penG penF FileInput.absent annG =
        load_mappings penG penF (FileInput.ok []) annG)
    ∧ (load_mappings penG penF lawG FileInput.absent =
        load_mappings penG penF lawG (FileInput.ok []))
    ∧ ((load_mappings (FileInput.malformed a) penF lawG annG).1 =
        (load_mappings (FileInput.ok a) FileInput.absent FileInput.absent
          FileInput.absent).1)
    ∧ ((load_mappings penG (FileInput.malformed b) lawG annG).1 =
        (load_mappings penG (FileInput.ok b) FileInput.absent FileInput.absent).1)
    ∧ ((load_mappings penG penF (FileInput.malformed c) annG).1 =
        (load_mappings penG penF (FileInput.ok c) FileInput.absent).1)
    ∧ ((load_mappings penG penF lawG (FileInput.malformed d)).1 =
        (load_mappings penG penF lawG (FileInput.ok d)).1) := by
  cases penG <;> cases penF <;> cases lawG <;> cases annG <;>
    simp [load_mappings, stepFile, FileInput.isMal, Except.bind,
      loadPenGem_nil, loadPenFile_nil, loadNewFormat_nil]

/-- A penalties document file whose iteration raises after its first entry
was merged: that entry is the malformed file's kept prefix. -/
def penFilePartC3 : List (String × Dict) :=
  [("fsc_pen_1", [("display_name", "2020-02-02_保險局_甲公司"), ("date", "2020-02-02")])]

/-- C3 witness: a penalties document file that raises after merging one
entry keeps that entry, and the load truncates there — the result equals
loading the merged prefix as a well-formed file with every later file
absent (here dropping the well-formed law-interpretations file). -/
theorem c3_witness :
    (load_mappings (FileInput.ok [("files/xyz", "fsc_pen_1")])
        (FileInput.malformed penFilePartC3) (FileInput.ok lawEntryC3)
        FileInput.absent).1 =
      (load_mappings (FileInput.ok [("files/xyz", "fsc_pen_1")])
        (FileInput.ok penFilePartC3) FileInput.absent FileInput.absent).1 :=
  (c3_amended (FileInput.ok [("files/xyz", "fsc_pen_1")])
    (FileInput.malformed penFilePartC3) (FileInput.ok lawEntryC3) FileInput.absent
    [] penFilePartC3 [] []).2.2.2.2.2.2.1

/-- C8: the Presenter's per-bucket ordering is the descending lexicographic
(code-point) string order on the date field; sorting the four-citation
bucket with dates 2020-01-01, 2023-05-05, 2019-12-31 and "unknown date"
keeps the three real dates in the order 2023-05-05, 2020-01-01, 2019-12-31,
and the unknown-date entry comes last exactly when the sentinel string
sorts lexically below all real ISO dates — here it does not ("u" sorts
above the digits), so the sentinel in fact comes first. -/
theorem c8_bucket_sort :
    (∀ l : List Source,
      (sortByDateDesc l).Pairwise (fun a b => b.date.data ≤ a.date.data))
    ∧ ((sortByDateDesc bucketC8).map Source.date =
        ["unknown date", "2023-05-05", "2020-01-01", "2019-12-31"])
    ∧ (((sortByDateDesc bucketC8).map Source.date =
        ["2023-05-05", "2020-01-01", "2019-12-31", "unknown date"]) ↔
        ∀ d ∈ (["2020-01-01", "2023-05-05", "2019-12-31"] : List String),
          pyStrLt "unknown date" d) :=
  ⟨sortByDateDesc_sorted, by decide, by decide⟩

/-- C8 witness: the sorted-descending invariant applied to the concrete
bucket. -/
theorem c8_witness :
    (sortByDateDesc bucketC8).Pairwise (fun a b => b.date.data ≤ a.date.data) :=
  c8_bucket_sort.1 bucketC8

/-- C9: the system prompt depends only on the SET of selected collection
keys (inclusion of each guideline block is by membership, in the fixed
order penalties, interpretations, announcements), so two selections with
the same members in any order and multiplicity yield the identical
instruction string. -/
theorem c9_prompt_set_invariant (s1 s2 : List String)
    (h : ∀ k : String, k ∈ s1 ↔ k ∈ s2) :
    get_system_prompt s1 = get_system_prompt s2 := by
  have e1 : ("penalties" ∈ s1) = ("penalties" ∈ s2) := propext (h "penalties")
  have e2 : ("law_interpretations" ∈ s1) = ("law_interpretations" ∈ s2) :=
    propext (h "law_interpretations")
  have e3 : ("announcements" ∈ s1) = ("announcements" ∈ s2) :=
    propext (h "announcements")
  simp only [get_system_prompt, e1, e2, e3]

/-- C9 witness: reordering and duplicating the same two keys leaves the
prompt unchanged. -/
theorem c9_witness :
    get_system_prompt ["announcements", "penalties"] =
      get_system_prompt ["penalties", "announcements", "penalties"] :=
  c9_prompt_set_invariant ["announcements", "penalties"]
    ["penalties", "announcements", "penalties"]
    (by
      intro k
      simp only [List.mem_cons, List.not_mem_nil, or_false]
      tauto)

/-- C10: the Orchestrator returns with zero endpoint calls exactly when no
element of the selection is a key of the static collection table, and in
that case the result is precisely the validation error result — so a
selection of only unknown keys is rejected like an empty one, while
unknown keys in a mixed selection are ignored and the call proceeds. -/
theorem c10_validation_iff (endpoint : Endpoint) (elapsed : Nat)
    (question api_key : String) (selected_stores : List String) :
    (((query_gemini endpoint elapsed question selected_stores api_key).2 = 0) ↔
      ∀ s ∈ selected_stores, STORES.lookup s = none)
    ∧ ((∀ s ∈ selected_stores, STORES.lookup s = none) →
        (query_gemini endpoint elapsed question selected_stores api_key).1 =
          ⟨"請至少選擇一個資料來源", [], none, true⟩) := by
  have hids : (selected_stores.filterMap
      (fun s => (STORES.lookup s).map (fun st => st.store_id)) = []) ↔
      ∀ s ∈ selected_stores, STORES.lookup s = none := by
    rw [List.filterMap_eq_nil_iff]
    constructor
    · intro h s hs
      have h2 := h s hs
      cases hL : STORES.lookup s with
      | none => rfl
      | some v => rw [hL] at h2; simp at h2
    · intro h s hs
      rw [h s hs]
      rfl
  by_cases hS : ∀ s ∈ selected_stores, STORES.lookup s = none
  · have hemp := hids.mpr hS
    have hcnt : (query_gemini endpoint elapsed question selected_stores api_key).2 = 0 := by
      simp [query_gemini, hemp]
    have hres : (query_gemini endpoint elapsed question selected_stores api_key).1 =
        ⟨"請至少選擇一個資料來源", [], none, true⟩ := by
      simp [query_gemini, hemp]
    exact ⟨iff_of_true hcnt hS, fun _ => hres⟩
  · have hemp : ¬ (selected_stores.filterMap
        (fun s => (STORES.lookup s).map (fun st => st.store_id)) = []) :=
      fun hh => hS (hids.mp hh)
    have hcnt : (query_gemini endpoint elapsed question selected_stores api_key).2 = 1 := by
      simp only [query_gemini]
      rw [if_neg hemp]
      split <;> rfl
    refine ⟨?_, fun hh => absurd hh hS⟩
    rw [hcnt]
    exact iff_of_false (by simp) hS

/-- C10 witness: a selection holding only unknown keys gets the validation
error result. -/
theorem c10_witness :
    (query_gemini endpointFail 0 "q" ["nosuch", "alsonot"] "k").1 =
      ⟨"請至少選擇一個資料來源", [], none, true⟩ :=
  (c10_validation_iff endpointFail 0 "q" "k" ["nosuch", "alsonot"]).2 (by decide)

/-- C4: for a submitted question with a non-empty collection selection
whose first query returns a non-error result, the Presenter makes exactly
one retry call with the identical (question, selection, credential)
arguments when the result has zero citations — and reports the no-results
message only after that one retry also returns zero citations — while a
result carrying one or more citations triggers no retry at all. -/
theorem c4_retry (net : Nat → Endpoint) (lat1 lat2 : Nat) (question : String)
    (selected_stores : List String) (api_key : String)
    (hsel : selected_stores ≠ [])
    (herr : (query_gemini (net 0) lat1 question selected_stores api_key).1.error = false) :
    ((query_gemini (net 0) lat1 question selected_stores api_key).1.sources = [] →
      (handle_query net lat1 lat2 question selected_stores api_key).2 =
        [(question, selected_stores, api_key), (question, selected_stores, api_key)]
      ∧ ((query_gemini (net 1) lat2 question selected_stores api_key).1.sources = [] →
          (handle_query net lat1 lat2 question selected_stores api_key).1 =
            Rendered.noResults))
    ∧ ((query_gemini (net 0) lat1 question selected_stores api_key).1.sources ≠ [] →
      (handle_query net lat1 lat2 question selected_stores api_key).2 =
        [(question, selected_stores, api_key)]) := by
  constructor
  · intro h0
    constructor
    · simp [handle_query, hsel, herr, h0]
      try split <;> rfl
    · intro h1
      simp [handle_query, hsel, herr, h0, h1]
  · intro h0
    simp [handle_query, hsel, herr, h0]

/-- C4 witness: an endpoint that always answers with zero citations makes
the Presenter call the Orchestrator exactly twice with identical argument
triples. -/
theorem c4_witness :
    (handle_query netEmpty 0 0 "q" ["penalties"] "k").2 =
      [("q", ["penalties"], "k"), ("q", ["penalties"], "k")] :=
  ((c4_retry netEmpty 0 0 "q" ["penalties"] "k" (by decide) (by decide)).1 (by decide)).1

end FscQa
